import Mathlib

/-!
Shallow embedding of `src/pagina.py` (a Streamlit chat app that builds YouTube
playlists from Gemini song recommendations), together with spec-side
characterisations used to settle the claims.

Conventions:
* Python strings are Lean `String`s; per-character work happens on `List Char`.
* Python's `\s` class (in `re`) and the character set removed by `str.strip()`
  are modelled over the six ASCII whitespace characters.
* Python values occurring in YouTube API responses are modelled by `PyVal`;
  an exception raised by `execute()` is modelled by `SearchOutcome.raise`;
  exceptions raised by subscripting (`KeyError`, `IndexError`, `TypeError`)
  are modelled by `Option`/`Except` results.
-/

namespace Playlisto

/-- The ASCII whitespace characters: the model of Python's `\s` class and of
the character set removed by `str.strip()`. -/
def isWs (c : Char) : Bool :=
  c == ' ' || c == '\t' || c == '\n' || c == '\r' || c == '\x0b' || c == '\x0c'

/-- Remove trailing whitespace (right strip). -/
def stripR (l : List Char) : List Char := (l.reverse.dropWhile isWs).reverse

/-- Model of Python's `str.strip()` on character lists: trailing whitespace
removed, then leading whitespace removed. -/
def pyStripC (l : List Char) : List Char := (stripR l).dropWhile isWs

/-- Model of Python's `str.strip()`. -/
def pyStrip (s : String) : String := (pyStripC s.data).asString

/-- Semantics of the tail regex `\s*(.+)` matching the characters after the
pipe, to the end of the line: it fails on an empty remainder; otherwise `\s*`
greedily skips whitespace and the greedy `(.+)` (at least one character) takes
the rest; when everything after the pipe is whitespace the backtracking engine
gives one whitespace character back to `(.+)`, so group 2 is the last
character. -/
def tryAfterPipe (rest : List Char) : Option (List Char) :=
  if rest.isEmpty then none
  else if (rest.dropWhile isWs).isEmpty then some (rest.reverse.take 1)
  else some (rest.dropWhile isWs)

/-- Backtracking semantics of `re.match(r"(.+?)\s*\|\s*(.+)", line)` from
line 75 of `pagina.py`: the lazy group `(.+?)` grows one character at a time
(`acc` is the part of the line it has already taken); for each candidate
length the engine tries `\s*\|` (skip the maximal whitespace run, then require
a literal pipe — a pipe is not whitespace, so the run's end is the only
position `\|` can try) and then `\s*(.+)` on the remainder; on failure the
lazy group grows by one more character. -/
def reMatchAux : List Char → List Char → Option (List Char × List Char)
  | _, [] => none
  | acc, c :: cs =>
      if (cs.dropWhile isWs).head? = some '|' then
        match tryAfterPipe (cs.dropWhile isWs).tail with
        | some g2 => some (acc ++ [c], g2)
        | none => reMatchAux (acc ++ [c]) cs
      else reMatchAux (acc ++ [c]) cs

/-- Lines 75–78 of `generate_playlist`: match the line against
`r"(.+?)\s*\|\s*(.+)"`; on success `.strip()` both captured groups. -/
def parseLine (line : String) : Option (String × String) :=
  match reMatchAux [] line.data with
  | none => none
  | some (g1, g2) => some ( (pyStripC g1).asString, (pyStripC g2).asString )

/-- A Python value as it occurs in a decoded YouTube API response. -/
inductive PyVal : Type
  | str (s : String)
  | int (n : Int)
  | list (xs : List PyVal)
  | dict (kvs : List (String × PyVal))

/-- First-match lookup in an association list modelling a Python dict
(a Python dict has unique keys, so first-match agrees with dict lookup). -/
def lookupKV : List (String × PyVal) → String → Option PyVal
  | [], _ => none
  | (k', v) :: rest, k => if k' = k then some v else lookupKV rest k

/-- `d.get(k)` on a dict: `none` for a missing key.  On a non-dict value the
Python attribute access raises; since in `get_youtube_video_id` both a raise
inside the `try` and a falsy `None` end in `return None`, the raise is folded
into `none` here (observationally identical at the function's interface). -/
def PyVal.getKey : PyVal → String → Option PyVal
  | .dict kvs, k => lookupKV kvs k
  | _, _ => none

/-- `l[i]` subscripting: `none` models the `IndexError`/`TypeError` raise. -/
def PyVal.index : PyVal → Nat → Option PyVal
  | .list xs, i => xs.get? i
  | _, _ => none

/-- Python truthiness of a `PyVal` (`if search_response.get("items"):`,
`if video_id:`): empty string, zero and empty containers are falsy. -/
def pyTruthy : PyVal → Bool
  | .str s => !(s == "")
  | .int n => !(n == 0)
  | .list xs => !xs.isEmpty
  | .dict kvs => !kvs.isEmpty

/-- The parameters of `youtube.search().list(q=…, part=…, maxResults=…,
type=…)`.  `rtype` stands for the Python keyword argument `type`. -/
structure SearchRequest where
  q : String
  part : String
  maxResults : Nat
  rtype : String
deriving DecidableEq

/-- Behaviour of one `… .execute()` call of the search service: it either
raises (any exception) or returns a decoded response value. -/
inductive SearchOutcome : Type
  | raise
  | ok (resp : PyVal)

/-- The request built on line 40 of `pagina.py` for a given song and artist:
query `f"{song_title} {artist} official audio"`, `part='snippet'`,
`maxResults=1`, `type='video'`. -/
def mkReq (song_title artist : String) : SearchRequest :=
  ⟨ song_title ++ " " ++ artist ++ " official audio", "snippet", 1, "video" ⟩

/-- Lines 37–46: `get_youtube_video_id`.  The whole body sits inside
`try: … except Exception: return None`; a raise from `execute()` is the
`SearchOutcome.raise` branch, raises from the subscript chain
`["items"][0]["id"]["videoId"]` are the `none` branch of the inner match, and
a missing or falsy `"items"` entry falls through to the final `return None`. -/
def get_youtube_video_id (service : SearchRequest → SearchOutcome)
    (song_title artist : String) : Option PyVal :=
  match service (mkReq song_title artist) with
  | .raise => none
  | .ok resp =>
      match resp.getKey "items" with
      | none => none
      | some items =>
          if pyTruthy items then
            match ((items.index 0).bind (fun x => x.getKey "id")).bind
                (fun x => x.getKey "videoId") with
            | some v => some v
            | none => none
          else none

/-- The literal text of the f-string `prompt_completo` (lines 50–65) before
the interpolation point `{user_input}`. -/
def promptPart1 : String :=
  "\n    Você é um \"Music Sommelier\", um especialista em curadoria musical de nicho, focado em conectar músicas com base em nuances e características sonoras específicas. Sua tarefa é criar uma playlist coesa e de alta qualidade.\n\n    O usuário forneceu as seguintes preferências: \""

/-- The literal text of the f-string `prompt_completo` after the interpolation
point (`\x27` is an apostrophe). -/
def promptPart2 : String :=
  "\"\n    \n    Siga estas regras RIGOROSAMENTE:\n    \n    1.  **Inclusão Obrigatória:** Se o usuário mencionou músicas ou artistas específicos, comece a playlist com eles. O restante da playlist deve complementar essas escolhas iniciais.\n    2.  **Critérios de Seleção:** As músicas recomendadas DEVEM compartilhar características sonoras claras com as preferências do usuário. Concentre-se em:\n        - **Subgênero:** Mantenha-se estritamente dentro do subgênero (ex: se for \x27grunge\x27, evite \x27hard rock de arena\x27).\n        - **Instrumentação e Timbre:** Procure por timbres de guitarra, padrões de bateria ou linhas de baixo semelhantes.\n        - **Período de Tempo:** Dê preferência a músicas da mesma era ou de movimentos musicais diretamente influenciados.\n        - **\"Vibe\" e Atmosfera:** A energia e o sentimento da música devem ser compatíveis.\n    3.  **Evitar Saltos Genéricos:** Não recomende artistas muito óbvios ou de gêneros completamente diferentes, a menos que haja uma conexão muito forte e específica.\n    4.  **Formato de Saída:** A sua resposta final deve conter APENAS a lista de músicas. Para cada música, use o formato exato \"Nome da Música | Nome do Artista\", uma por linha. Não adicione números, marcadores, títulos, explicações ou qualquer texto introdutório. A playlist final deve ter um total de 8 a 10 músicas.\n    "

/-- The rendered prompt (lines 50–65). -/
def prompt_completo (user_input : String) : String :=
  promptPart1 ++ user_input ++ promptPart2

/-- Line 69: `response.text.strip().split('\n')`. -/
def song_recommendations (text : String) : List String :=
  (pyStrip text).split (fun c => c == '\n')

/-- A Python exception value (its message). -/
abbrev PyErr := String

/-- One iteration of the `for line in song_recommendations` loop
(lines 74–82): parse the line; on a match, issue the search (the request is
recorded in the first component) and append the returned id to `video_ids`
if the id is truthy (`if video_id:` — `None` and falsy values are skipped). -/
def searchStep (service : SearchRequest → SearchOutcome)
    (acc : List SearchRequest × List PyVal) (line : String) :
    List SearchRequest × List PyVal :=
  match parseLine line with
  | none => acc
  | some (song, artist) =>
      match get_youtube_video_id service song artist with
      | none => (acc.1 ++ [mkReq song artist], acc.2)
      | some vid =>
          if pyTruthy vid then (acc.1 ++ [mkReq song artist], acc.2 ++ [vid])
          else (acc.1 ++ [mkReq song artist], acc.2)

/-- Lines 71–82: the sequential resolution loop, returning the issued search
requests (in order) and the accumulated `video_ids` list. -/
def searchLoop (service : SearchRequest → SearchOutcome) (lines : List String) :
    List SearchRequest × List PyVal :=
  lines.foldl (searchStep service) ([], [])

/-- The `TypeError` raised by `",".join` on a non-string item. -/
def joinTypeError : PyErr := "TypeError: sequence item: expected str instance"

/-- `sep.join(items)` on a list of Python values: raises `TypeError` as soon
as an item is not a string. -/
def pyJoin (sep : String) : List PyVal → Except PyErr String
  | [] => .ok ""
  | [PyVal.str s] => .ok s
  | PyVal.str s :: r :: rest =>
      match pyJoin sep (r :: rest) with
      | .ok tailJoined => .ok (s ++ sep ++ tailJoined)
      | .error e => .error e
  | _ :: _ => .error joinTypeError

/-- The fixed apology message of line 92. -/
def apologyMsg : String :=
  "Desculpe, não consegui encontrar vídeos para as músicas recomendadas. Tente ser mais específico."

/-- The success message of lines 88–90, with the comma-joined ids embedded in
the fixed URL template. -/
def successMsg (ids : String) : String :=
  "Playlist pronta! 🎧\n\n[Clique aqui para ouvir no YouTube](https://www.youtube.com/watch_videos?video_ids=" ++ ids ++ ")"

/-- Lines 71–92: resolution loop plus final branching — success message with
the joined ids when `video_ids` is non-empty (truthy), apology otherwise.
The first component records the issued search requests. -/
def assemble (service : SearchRequest → SearchOutcome) (lines : List String) :
    List SearchRequest × Except PyErr String :=
  let r := searchLoop service lines
  if r.2.isEmpty then (r.1, .ok apologyMsg)
  else
    match pyJoin "," r.2 with
    | .error e => (r.1, .error e)
    | .ok s => (r.1, .ok (successMsg s))

/-- Lines 48–92: `generate_playlist`.  The generation call
`model.generate_content(prompt_completo)` has no handler around it, so a raise
(`Except.error`) propagates out of the function; no search request is issued
in that case. -/
def generate_playlist (genText : String → Except PyErr String)
    (service : SearchRequest → SearchOutcome) (user_input : String) :
    List SearchRequest × Except PyErr String :=
  match genText (prompt_completo user_input) with
  | .error e => ([], .error e)
  | .ok t => assemble service (song_recommendations t)

/-- A chat message: `{"role": …, "content": …}`. -/
structure Message where
  role : String
  content : String
deriving DecidableEq

/-- An observable effect of one script run: an error banner (`st.error`), a
rendered chat message (`st.chat_message`/`st.markdown`), a generation-service
call, or a search-service call. -/
inductive Effect : Type
  | errorMsg (text : String)
  | showMessage (m : Message)
  | genCall (promptText : String)
  | searchCall (req : SearchRequest)
deriving DecidableEq

/-- The seed assistant greeting of line 104. -/
def greetingMessage : Message :=
  ⟨ "assistant", "Olá! Descreva as bandas, músicas ou o estilo que você curte e eu criarei uma playlist para você." ⟩

/-- The error banner of line 23 (missing API keys). -/
def keysMissingError : String :=
  "ERRO: As chaves de API do Gemini e do YouTube não foram encontradas. Defina-as em suas variáveis de ambiente ou segredos do Streamlit."

/-- The error banner of line 32 (API configuration failure). -/
def configErrorText (e : String) : String := "Erro ao configurar as APIs: " ++ e

/-- Python truthiness of `os.getenv`'s result: `None` and `""` are falsy
(the guard on line 22 is `if not GEMINI_API_KEY or not YOUTUBE_API_KEY`). -/
def optTruthy : Option String → Bool
  | none => false
  | some s => !(s == "")

/-- The inputs of one top-to-bottom run of the script: the two credentials as
read from the environment, whether `genai.configure`/`build` raised (with the
exception message), the session state (`none` before the first run), and the
value of `st.chat_input` for this run. -/
structure RunInput where
  gkey : Option String
  ykey : Option String
  configFail : Option String
  stateMessages : Option (List Message)
  promptInput : Option String

/-- The outcome of one run: the effect trace, the session state afterwards,
and the uncaught exception if the run died mid-way (`none` for a clean finish,
including the `st.stop()` halts). -/
structure RunResult where
  trace : List Effect
  finalMessages : Option (List Message)
  uncaught : Option PyErr
deriving DecidableEq

/-- The turn of lines 112–127, starting from the rendered history `msgs0`:
show and append the user message, run `generate_playlist` (one generation
call, then the recorded search calls), and — if no exception escaped — show
and append the assistant response.  An exception escaping `generate_playlist`
leaves the turn with the user message appended but no assistant message. -/
def turnRun (genText : String → Except PyErr String)
    (service : SearchRequest → SearchOutcome) (msgs0 : List Message)
    (p : String) : RunResult :=
  let shown1 := msgs0.map Effect.showMessage ++ [Effect.showMessage ⟨ "user", p ⟩]
  let msgs1 := msgs0 ++ [⟨ "user", p ⟩]
  let run := generate_playlist genText service p
  let callEffs := Effect.genCall (prompt_completo p) :: run.1.map Effect.searchCall
  match run.2 with
  | .error e => ⟨ shown1 ++ callEffs, some msgs1, some e ⟩
  | .ok r =>
      ⟨ shown1 ++ callEffs ++ [Effect.showMessage ⟨ "assistant", r ⟩],
        some (msgs1 ++ [⟨ "assistant", r ⟩]), none ⟩

/-- One top-to-bottom run of `pagina.py` (lines 11–127): key check with
`st.stop()` (lines 22–24), API configuration with `st.stop()` (lines 27–33),
history initialisation (lines 103–104), history rendering (lines 106–109),
and — when `st.chat_input` produced a prompt — the turn (`turnRun`). -/
def scriptRun (genText : String → Except PyErr String)
    (service : SearchRequest → SearchOutcome) (inp : RunInput) : RunResult :=
  if !(optTruthy inp.gkey && optTruthy inp.ykey) then
    ⟨ [Effect.errorMsg keysMissingError], inp.stateMessages, none ⟩
  else
    match inp.configFail with
    | some e => ⟨ [Effect.errorMsg (configErrorText e)], inp.stateMessages, none ⟩
    | none =>
        let msgs0 := inp.stateMessages.getD [greetingMessage]
        match inp.promptInput with
        | none => ⟨ msgs0.map Effect.showMessage, some msgs0, none ⟩
        | some p => turnRun genText service msgs0 p

/-- One completed user turn, as a transformation of the session state: the
rerun of the script triggered by submitting `p` in `st.chat_input`. -/
def chatStep (genText : String → Except PyErr String)
    (service : SearchRequest → SearchOutcome) (gk yk : String)
    (st : Option (List Message)) (p : String) : Option (List Message) :=
  (scriptRun genText service ⟨ some gk, some yk, none, st, some p ⟩).finalMessages

/-- The session state after the initial render (no prompt) followed by one
completed user turn per element of `prompts`, in order. -/
def sessionAfter (genText : String → Except PyErr String)
    (service : SearchRequest → SearchOutcome) (gk yk : String)
    (prompts : List String) : Option (List Message) :=
  prompts.foldl (chatStep genText service gk yk)
    (scriptRun genText service ⟨ some gk, some yk, none, none, none ⟩).finalMessages

/-- Spec-side characterisation: the candidates the parser extracts, one per
matching line, in line order. -/
def candidatesOf (lines : List String) : List (String × String) :=
  lines.filterMap parseLine

/-- Spec-side characterisation: the search requests issued by the loop, one
per matching line, in line order. -/
def callsOf (lines : List String) : List SearchRequest :=
  lines.filterMap (fun l => (parseLine l).map (fun sa => mkReq sa.1 sa.2))

/-- The id a single candidate contributes to `video_ids`: the search result,
kept only when truthy. -/
def resolvedId (service : SearchRequest → SearchOutcome) (sa : String × String) :
    Option PyVal :=
  match get_youtube_video_id service sa.1 sa.2 with
  | some v => if pyTruthy v then some v else none
  | none => none

/-- Spec-side characterisation of `video_ids`: the resolved identifiers in
candidate resolution order, duplicates kept, never reordered. -/
def video_idsOf (service : SearchRequest → SearchOutcome) (lines : List String) :
    List PyVal :=
  lines.filterMap (fun l => (parseLine l).bind (resolvedId service))

/-- Spec-side comma-join of identifier strings. -/
def commaJoin : List String → String
  | [] => ""
  | [s] => s
  | s :: r :: rest => s ++ "," ++ commaJoin (r :: rest)

/-- A search service that only ever hands out string identifiers (the
documented shape of the YouTube API's `videoId` field). -/
def StrService (service : SearchRequest → SearchOutcome) : Prop :=
  ∀ t a v, get_youtube_video_id service t a = some v → ∃ s, v = PyVal.str s

/-- The assistant response of a completed turn, for a generation model whose
raw text on the rendered prompt is `f (prompt_completo p)`. -/
def responseOf (f : String → String) (service : SearchRequest → SearchOutcome)
    (p : String) : String :=
  match (assemble service (song_recommendations (f (prompt_completo p)))).2 with
  | .ok r => r
  | .error _ => ""

/-- The pipeline shape shared by the two near-duplicate copies: render a
prompt from the user input, call the generation service, split and parse the
lines, resolve each candidate, assemble the message.  The prompt template
(wording and song count target included) is the parameter. -/
def pipelineWith (tmpl : String → String) (genText : String → Except PyErr String)
    (service : SearchRequest → SearchOutcome) (user_input : String) :
    List SearchRequest × Except PyErr String :=
  match genText (tmpl user_input) with
  | .error e => ([], .error e)
  | .ok t => assemble service (song_recommendations t)

/-- Modelled from the spec: the repository's second near-duplicate copy of the
pipeline logic (the earlier standalone script referenced by the comment on
line 36 of `pagina.py`; its file is not under `src/`).  Per the spec it
differs from `generate_playlist` only in prompt wording and song count
target, both of which live in its prompt template `tmpl`; the split, parse,
search and assembly steps are duplicated inline below. -/
def generate_playlist_script (tmpl : String → String)
    (genText : String → Except PyErr String)
    (service : SearchRequest → SearchOutcome) (user_input : String) :
    List SearchRequest × Except PyErr String :=
  match genText (tmpl user_input) with
  | .error e => ([], .error e)
  | .ok t =>
      let lines := (pyStrip t).split (fun c => c == '\n')
      let r := lines.foldl (searchStep service) ([], [])
      if r.2.isEmpty then (r.1, .ok apologyMsg)
      else
        match pyJoin "," r.2 with
        | .error e => (r.1, .error e)
        | .ok s => (r.1, .ok (successMsg s))

/-- Group 1 of a successful match of `A ++ "|" ++ B` when `A` is pipe-free:
`A` with its trailing whitespace removed (the lazy group stops before the
whitespace run preceding the pipe), except that when `A` is all whitespace
the lazy group still takes one character. -/
def group1Of (A : List Char) : List Char :=
  if stripR A = [] then A.take 1 else stripR A

/-- Group 2 of the match: `B` with its leading whitespace removed, or the
last character of `B` when `B` is all whitespace (the backtracking of
`\s*(.+)`). -/
def group2Of (B : List Char) : List Char :=
  if B.dropWhile isWs = [] then B.reverse.take 1 else B.dropWhile isWs

/-- A well-formed search response whose first item carries the video id
`"abc123"`; used by concrete witnesses. -/
def respOkVal : PyVal :=
  PyVal.dict [ ( "items", PyVal.list [ PyVal.dict [ ( "id", PyVal.dict [ ( "videoId", PyVal.str "abc123" ) ] ) ] ] ) ]

/-- A search service that always answers with `respOkVal`. -/
def svcAbc : SearchRequest → SearchOutcome := fun _ => SearchOutcome.ok respOkVal

/-- A search service whose every call raises. -/
def svcRaise : SearchRequest → SearchOutcome := fun _ => SearchOutcome.raise

/-! ### List helper lemmas -/

theorem dropWhile_append_eq_nil {α : Type} {p : α → Bool} {l₁ : List α}
    (h : l₁.dropWhile p = []) (l₂ : List α) :
    (l₁ ++ l₂).dropWhile p = l₂.dropWhile p := by
  induction l₁ with
  | nil => rfl
  | cons a t ih =>
      rw [List.dropWhile_cons] at h
      rw [List.cons_append, List.dropWhile_cons]
      by_cases hp : p a
      · rw [if_pos hp] at h ⊢
        exact ih h
      · rw [if_neg hp] at h
        exact absurd h (List.cons_ne_nil a t)

theorem dropWhile_append_ne_nil {α : Type} {p : α → Bool} {l₁ : List α}
    (h : l₁.dropWhile p ≠ []) (l₂ : List α) :
    (l₁ ++ l₂).dropWhile p = l₁.dropWhile p ++ l₂ := by
  induction l₁ with
  | nil => exact absurd rfl h
  | cons a t ih =>
      rw [List.dropWhile_cons] at h
      rw [List.cons_append, List.dropWhile_cons, List.dropWhile_cons]
      by_cases hp : p a
      · simp only [if_pos hp] at h ⊢
        exact ih h
      · simp only [if_neg hp]
        exact (List.cons_append a t l₂).symm

theorem dropWhile_head_not {α : Type} {p : α → Bool} :
    ∀ {l : List α} {x : α} {xs : List α}, l.dropWhile p = x :: xs → p x = false := by
  intro l
  induction l with
  | nil => intro x xs h; cases h
  | cons a t ih =>
      intro x xs h
      rw [List.dropWhile_cons] at h
      by_cases hp : p a
      · rw [if_pos hp] at h
        exact ih h
      · rw [if_neg hp] at h
        cases h
        exact Bool.eq_false_iff.mpr hp

/-! ### Whitespace stripping lemmas -/

theorem stripR_eq_nil_iff {l : List Char} : stripR l = [] ↔ ∀ x ∈ l, isWs x := by
  simp [stripR, List.dropWhile_eq_nil_iff]

theorem stripR_idem (l : List Char) : stripR (stripR l) = stripR l := by
  simp [stripR, List.reverse_reverse, List.dropWhile_idempotent]

theorem pyStripC_eq_nil_of_all {l : List Char} (h : ∀ x ∈ l, isWs x) :
    pyStripC l = [] := by
  have hr : stripR l = [] := stripR_eq_nil_iff.mpr h
  simp [pyStripC, hr]

theorem stripR_append {x y : List Char} (h : stripR y ≠ []) :
    stripR (x ++ y) = x ++ stripR y := by
  have hy : y.reverse.dropWhile isWs ≠ [] := by
    intro hh
    exact h (by simp [stripR, hh])
  simp only [stripR, List.reverse_append]
  rw [dropWhile_append_ne_nil hy, List.reverse_append, List.reverse_reverse]

theorem stripR_ne_nil_of_head {c : Char} {t : List Char} (hc : isWs c = false) :
    stripR (c :: t) ≠ [] := by
  intro hh
  have := stripR_eq_nil_iff.mp hh c (List.mem_cons_self c t)
  rw [hc] at this
  cases this

theorem pyStripC_dropWhile {B : List Char} (h : B.dropWhile isWs ≠ []) :
    pyStripC (B.dropWhile isWs) = pyStripC B := by
  obtain ⟨c, t, hct⟩ : ∃ c t, B.dropWhile isWs = c :: t := by
    cases hd : B.dropWhile isWs with
    | nil => exact absurd hd h
    | cons c t => exact ⟨c, t, rfl⟩
  have hc : isWs c = false := dropWhile_head_not hct
  have hsd : stripR (B.dropWhile isWs) ≠ [] := by
    rw [hct]; exact stripR_ne_nil_of_head hc
  have hw : (B.takeWhile isWs).dropWhile isWs = [] :=
    List.dropWhile_eq_nil_iff.mpr (fun x hx => List.mem_takeWhile_imp hx)
  have hB : B.takeWhile isWs ++ B.dropWhile isWs = B :=
    List.takeWhile_append_dropWhile isWs B
  calc pyStripC (B.dropWhile isWs)
      = (stripR (B.dropWhile isWs)).dropWhile isWs := rfl
    _ = (B.takeWhile isWs ++ stripR (B.dropWhile isWs)).dropWhile isWs := by
        rw [dropWhile_append_eq_nil hw]
    _ = (stripR (B.takeWhile isWs ++ B.dropWhile isWs)).dropWhile isWs := by
        rw [stripR_append hsd]
    _ = pyStripC B := by rw [hB]; rfl

theorem pyStripC_group1 (A : List Char) : pyStripC (group1Of A) = pyStripC A := by
  by_cases h : stripR A = []
  · have hall : ∀ x ∈ A, isWs x := stripR_eq_nil_iff.mp h
    have h1 : ∀ x ∈ A.take 1, isWs x := fun x hx => hall x (List.take_subset 1 A hx)
    rw [group1Of, if_pos h, pyStripC_eq_nil_of_all h1, pyStripC_eq_nil_of_all hall]
  · rw [group1Of, if_neg h]
    show (stripR (stripR A)).dropWhile isWs = (stripR A).dropWhile isWs
    rw [stripR_idem]

theorem pyStripC_group2 (B : List Char) : pyStripC (group2Of B) = pyStripC B := by
  by_cases h : B.dropWhile isWs = []
  · have hall : ∀ x ∈ B, isWs x := List.dropWhile_eq_nil_iff.mp h
    have h1 : ∀ x ∈ B.reverse.take 1, isWs x := fun x hx =>
      hall x (List.mem_reverse.mp (List.take_subset 1 B.reverse hx))
    rw [group2Of, if_pos h, pyStripC_eq_nil_of_all h1, pyStripC_eq_nil_of_all hall]
  · rw [group2Of, if_neg h]
    exact pyStripC_dropWhile h

/-! ### Regex match lemmas -/

theorem isWs_pipe : isWs '|' = false := by decide

theorem tryAfterPipe_of_ne_nil {B : List Char} (hB : B ≠ []) :
    tryAfterPipe B = some (group2Of B) := by
  unfold tryAfterPipe group2Of
  rw [if_neg (by simpa using hB)]
  by_cases h : B.dropWhile isWs = []
  · rw [if_pos (by simpa using h), if_pos h]
  · rw [if_neg (by simpa using h), if_neg h]

theorem group1Of_cons_of_ws {a : Char} {t : List Char} (h : ∀ x ∈ t, isWs x) :
    group1Of (a :: t) = [a] := by
  have hr : stripR (a :: t) = if isWs a then [] else [a] := by
    have ht : t.reverse.dropWhile isWs = [] :=
      List.dropWhile_eq_nil_iff.mpr (fun x hx => h x (List.mem_reverse.mp hx))
    show ((a :: t).reverse.dropWhile isWs).reverse = _
    rw [List.reverse_cons, dropWhile_append_eq_nil ht, List.dropWhile_cons]
    by_cases ha : isWs a
    · rw [if_pos ha, if_pos ha]
      rfl
    · rw [if_neg ha, if_neg ha]
      rfl
  by_cases ha : isWs a
  · rw [if_pos ha] at hr
    rw [group1Of, if_pos hr]
    rfl
  · rw [if_neg ha] at hr
    rw [group1Of, if_neg (by rw [hr]; exact List.cons_ne_nil a []), hr]

theorem group1Of_cons_of_not_ws {a : Char} {t : List Char} (h : ¬ ∀ x ∈ t, isWs x) :
    group1Of (a :: t) = a :: group1Of t := by
  have ht : stripR t ≠ [] := fun hh => h (stripR_eq_nil_iff.mp hh)
  have hs : stripR (a :: t) = a :: stripR t := by
    have := stripR_append (x := [a]) (y := t) ht
    simpa using this
  rw [group1Of, group1Of, if_neg ht, if_neg (by rw [hs]; exact List.cons_ne_nil _ _), hs]

theorem reMatchAux_split {B : List Char} (hB : B ≠ []) :
    ∀ (A acc : List Char), A ≠ [] → '|' ∉ A →
      reMatchAux acc (A ++ '|' :: B) = some (acc ++ group1Of A, group2Of B) := by
  intro A
  induction A with
  | nil => intro acc h _; exact absurd rfl h
  | cons a t ih =>
      intro acc _ hpipe
      have hpt : '|' ∉ t := fun hm => hpipe (List.mem_cons_of_mem a hm)
      rw [List.cons_append]
      by_cases hws : t.dropWhile isWs = []
      · have hall : ∀ x ∈ t, isWs x := List.dropWhile_eq_nil_iff.mp hws
        have hd : (t ++ '|' :: B).dropWhile isWs = '|' :: B := by
          rw [dropWhile_append_eq_nil hws, List.dropWhile_cons, if_neg (by rw [isWs_pipe]; exact Bool.false_ne_true)]
        rw [reMatchAux, hd]
        rw [if_pos (show ('|' :: B).head? = some '|' from rfl)]
        show (match tryAfterPipe B with
          | some g2 => some (acc ++ [a], g2)
          | none => reMatchAux (acc ++ [a]) (t ++ '|' :: B)) = _
        rw [tryAfterPipe_of_ne_nil hB, group1Of_cons_of_ws hall]
      · have hd : (t ++ '|' :: B).dropWhile isWs = t.dropWhile isWs ++ '|' :: B :=
          dropWhile_append_ne_nil hws ('|' :: B)
        obtain ⟨x, xs, hct⟩ : ∃ x xs, t.dropWhile isWs = x :: xs := by
          cases hdd : t.dropWhile isWs with
          | nil => exact absurd hdd hws
          | cons x xs => exact ⟨x, xs, rfl⟩
        have hx_mem : x ∈ t := by
          have hsub : t.dropWhile isWs <:+ t := List.dropWhile_suffix isWs
          exact hsub.sublist.mem (hct ▸ List.mem_cons_self x xs)
        have hxne : x ≠ '|' := fun hh => hpt (hh ▸ hx_mem)
        have hhead : ((t ++ '|' :: B).dropWhile isWs).head? ≠ some '|' := by
          rw [hd, hct, List.cons_append, List.head?_cons]
          intro hh
          exact hxne (Option.some_inj.mp hh)
        rw [reMatchAux, if_neg hhead]
        rw [ih (acc ++ [a]) (fun hh => hws (by rw [hh]; rfl)) hpt]
        rw [group1Of_cons_of_not_ws (fun hall => hws (List.dropWhile_eq_nil_iff.mpr hall))]
        rw [List.append_assoc]
        rfl

theorem string_data_ne_nil {s : String} (h : s ≠ "") : s.data ≠ [] := by
  intro hd
  apply h
  cases s with
  | mk l => cases hd; rfl

theorem parseLine_split {A B : String} (hA : A ≠ "") (hpipe : '|' ∉ A.data)
    (hB : B ≠ "") :
    parseLine (A ++ "|" ++ B) = some ( pyStrip A, pyStrip B ) := by
  have happ : ∀ (s t : String), (s ++ t).data = s.data ++ t.data := by
    intro s t
    cases s
    cases t
    rfl
  have hdata : (A ++ "|" ++ B).data = A.data ++ '|' :: B.data := by
    rw [happ, happ]
    rw [show ("|" : String).data = ['|'] from rfl, List.append_assoc]
    rfl
  unfold parseLine
  rw [hdata, reMatchAux_split (string_data_ne_nil hB) A.data [] (string_data_ne_nil hA) hpipe]
  show some ( (pyStripC ([] ++ group1Of A.data)).asString,
      (pyStripC (group2Of B.data)).asString ) = some ( pyStrip A, pyStrip B )
  rw [List.nil_append, pyStripC_group1, pyStripC_group2]
  rfl

theorem parseLine_no_pipe_aux {l : List Char} (h : '|' ∉ l) :
    ∀ acc, reMatchAux acc l = none := by
  induction l with
  | nil => intro acc; rfl
  | cons c cs ih =>
      intro acc
      have hcs : '|' ∉ cs := fun hm => h (List.mem_cons_of_mem c hm)
      have hd : (cs.dropWhile isWs).head? ≠ some '|' := by
        intro hh
        cases hdd : cs.dropWhile isWs with
        | nil => rw [hdd] at hh; cases hh
        | cons x xs =>
            rw [hdd, List.head?_cons] at hh
            have hx : x ∈ cs := by
              have hsub : cs.dropWhile isWs <:+ cs := List.dropWhile_suffix isWs
              exact hsub.sublist.mem (hdd ▸ List.mem_cons_self x xs)
            exact hcs (Option.some_inj.mp hh ▸ hx)
      rw [reMatchAux, if_neg hd]
      exact ih hcs (acc ++ [c])

theorem parseLine_no_pipe {line : String} (h : '|' ∉ line.data) :
    parseLine line = none := by
  unfold parseLine
  rw [parseLine_no_pipe_aux h []]

/-! ### Resolution loop lemmas -/

theorem searchStep_none {service : SearchRequest → SearchOutcome}
    {line : String} (h : parseLine line = none)
    (acc : List SearchRequest × List PyVal) :
    searchStep service acc line = acc := by
  unfold searchStep
  rw [h]

theorem searchLoop_eq_aux (service : SearchRequest → SearchOutcome) :
    ∀ (lines : List String) (c : List SearchRequest) (i : List PyVal),
      lines.foldl (searchStep service) (c, i) =
        (c ++ callsOf lines, i ++ video_idsOf service lines) := by
  intro lines
  induction lines with
  | nil =>
      intro c i
      simp [callsOf, video_idsOf]
  | cons l rest ih =>
      intro c i
      rw [List.foldl_cons]
      cases hp : parseLine l with
      | none =>
          rw [searchStep_none hp, ih]
          simp [callsOf, video_idsOf, List.filterMap_cons, hp]
      | some sa =>
          obtain ⟨song, artist⟩ := sa
          cases hg : get_youtube_video_id service song artist with
          | none =>
              have hs : searchStep service (c, i) l = (c ++ [mkReq song artist], i) := by
                simp [searchStep, hp, hg]
              rw [hs, ih]
              simp [callsOf, video_idsOf, List.filterMap_cons, hp, resolvedId, hg,
                List.append_assoc]
          | some v =>
              by_cases ht : pyTruthy v
              · have hs : searchStep service (c, i) l =
                    (c ++ [mkReq song artist], i ++ [v]) := by
                  simp [searchStep, hp, hg, ht]
                rw [hs, ih]
                simp [callsOf, video_idsOf, List.filterMap_cons, hp, resolvedId, hg,
                  ht, List.append_assoc]
              · have hs : searchStep service (c, i) l = (c ++ [mkReq song artist], i) := by
                  simp [searchStep, hp, hg, ht]
                rw [hs, ih]
                simp [callsOf, video_idsOf, List.filterMap_cons, hp, resolvedId, hg,
                  ht, List.append_assoc]

theorem searchLoop_eq (service : SearchRequest → SearchOutcome) (lines : List String) :
    searchLoop service lines = (callsOf lines, video_idsOf service lines) := by
  unfold searchLoop
  rw [searchLoop_eq_aux service lines [] []]
  rfl

theorem pyJoin_map_str : ∀ strs : List String,
    pyJoin "," (strs.map PyVal.str) = Except.ok (commaJoin strs) := by
  intro strs
  induction strs with
  | nil => rfl
  | cons s rest ih =>
      cases rest with
      | nil => rfl
      | cons r rest' =>
          have ih' : pyJoin "," (PyVal.str r :: rest'.map PyVal.str) =
              Except.ok (commaJoin (r :: rest')) := ih
          show pyJoin "," (PyVal.str s :: PyVal.str r :: rest'.map PyVal.str) = _
          rw [pyJoin, ih']
          rfl

theorem resolvedId_eq_some {service : SearchRequest → SearchOutcome}
    {sa : String × String} {v : PyVal} (h : resolvedId service sa = some v) :
    get_youtube_video_id service sa.1 sa.2 = some v := by
  unfold resolvedId at h
  cases hg : get_youtube_video_id service sa.1 sa.2 with
  | none =>
      simp [hg] at h
  | some w =>
      simp only [hg] at h
      by_cases ht : pyTruthy w
      · rw [if_pos ht] at h
        exact h
      · rw [if_neg ht] at h
        cases h

theorem ids_all_str {service : SearchRequest → SearchOutcome}
    (hs : StrService service) (lines : List String) :
    ∃ strs : List String, video_idsOf service lines = strs.map PyVal.str := by
  induction lines with
  | nil => exact ⟨[], rfl⟩
  | cons l rest ih =>
      obtain ⟨strs, hstrs⟩ := ih
      cases hl : (parseLine l).bind (resolvedId service) with
      | none =>
          refine ⟨strs, ?_⟩
          unfold video_idsOf
          rw [List.filterMap_cons, hl]
          exact hstrs
      | some v =>
          obtain ⟨sa, _, hres⟩ := Option.bind_eq_some.mp hl
          obtain ⟨s, hv⟩ := hs sa.1 sa.2 v (resolvedId_eq_some hres)
          refine ⟨s :: strs, ?_⟩
          unfold video_idsOf
          rw [List.filterMap_cons, hl]
          show v :: video_idsOf service rest = (s :: strs).map PyVal.str
          rw [hv, hstrs]
          rfl

theorem assemble_snd {service : SearchRequest → SearchOutcome}
    {lines : List String} {strs : List String}
    (h : video_idsOf service lines = strs.map PyVal.str) :
    (assemble service lines).2 =
      Except.ok (if strs.isEmpty then apologyMsg else successMsg (commaJoin strs)) := by
  unfold assemble
  rw [searchLoop_eq]
  cases strs with
  | nil =>
      have hnil : video_idsOf service lines = [] := by rw [h]; rfl
      simp [hnil]
  | cons s rest =>
      have hne : (video_idsOf service lines).isEmpty = false := by
        rw [h]
        rfl
      simp only [hne, Bool.false_eq_true, if_false, List.isEmpty_cons]
      rw [h, pyJoin_map_str]

theorem assemble_ok {service : SearchRequest → SearchOutcome}
    (hs : StrService service) (lines : List String) :
    ∃ r, (assemble service lines).2 = Except.ok r := by
  obtain ⟨strs, hstrs⟩ := ids_all_str hs lines
  exact ⟨_, assemble_snd hstrs⟩

/-! ### Script run lemmas -/

theorem optTruthy_some {s : String} (h : s ≠ "") : optTruthy (some s) = true := by
  simp [optTruthy, h]

theorem scriptRun_bad_keys {genText : String → Except PyErr String}
    {service : SearchRequest → SearchOutcome} {inp : RunInput}
    (h : optTruthy inp.gkey = false ∨ optTruthy inp.ykey = false) :
    scriptRun genText service inp =
      ⟨ [Effect.errorMsg keysMissingError], inp.stateMessages, none ⟩ := by
  have hc : (optTruthy inp.gkey && optTruthy inp.ykey) = false := by
    cases h with
    | inl h => rw [h]; rfl
    | inr h => rw [h]; exact Bool.and_false _
  simp [scriptRun, hc]

theorem scriptRun_noprompt {genText : String → Except PyErr String}
    {service : SearchRequest → SearchOutcome} {gk yk : String}
    {st : Option (List Message)} (hg : gk ≠ "") (hy : yk ≠ "") :
    scriptRun genText service ⟨ some gk, some yk, none, st, none ⟩ =
      ⟨ (st.getD [greetingMessage]).map Effect.showMessage,
        some (st.getD [greetingMessage]), none ⟩ := by
  have hc : (optTruthy (some gk) && optTruthy (some yk)) = true := by
    rw [optTruthy_some hg, optTruthy_some hy]
    rfl
  simp [scriptRun, hc]

theorem scriptRun_prompt {genText : String → Except PyErr String}
    {service : SearchRequest → SearchOutcome} {gk yk : String}
    {st : Option (List Message)} {p : String} (hg : gk ≠ "") (hy : yk ≠ "") :
    scriptRun genText service ⟨ some gk, some yk, none, st, some p ⟩ =
      turnRun genText service (st.getD [greetingMessage]) p := by
  have hc : (optTruthy (some gk) && optTruthy (some yk)) = true := by
    rw [optTruthy_some hg, optTruthy_some hy]
    rfl
  simp [scriptRun, hc]

theorem turnRun_ok {genText : String → Except PyErr String}
    {service : SearchRequest → SearchOutcome} {msgs0 : List Message}
    {p : String} {r : String}
    (h : (generate_playlist genText service p).2 = Except.ok r) :
    turnRun genText service msgs0 p =
      ⟨ msgs0.map Effect.showMessage ++ [Effect.showMessage ⟨ "user", p ⟩] ++
          (Effect.genCall (prompt_completo p) ::
            (generate_playlist genText service p).1.map Effect.searchCall) ++
          [Effect.showMessage ⟨ "assistant", r ⟩],
        some (msgs0 ++ [⟨ "user", p ⟩] ++ [⟨ "assistant", r ⟩]), none ⟩ := by
  simp only [turnRun]
  rw [h]

theorem turnRun_error {genText : String → Except PyErr String}
    {service : SearchRequest → SearchOutcome} {msgs0 : List Message}
    {p : String} {e : PyErr}
    (h : (generate_playlist genText service p).2 = Except.error e) :
    turnRun genText service msgs0 p =
      ⟨ msgs0.map Effect.showMessage ++ [Effect.showMessage ⟨ "user", p ⟩] ++
          (Effect.genCall (prompt_completo p) ::
            (generate_playlist genText service p).1.map Effect.searchCall),
        some (msgs0 ++ [⟨ "user", p ⟩]), some e ⟩ := by
  simp only [turnRun]
  rw [h]

theorem chatStep_eq {service : SearchRequest → SearchOutcome}
    (hsv : StrService service) (f : String → String) {gk yk : String}
    (hg : gk ≠ "") (hy : yk ≠ "") (msgs : List Message) (p : String) :
    chatStep (fun s => Except.ok (f s)) service gk yk (some msgs) p =
      some (msgs ++ [ ⟨ "user", p ⟩, ⟨ "assistant", responseOf f service p ⟩ ]) := by
  obtain ⟨r, hr⟩ := assemble_ok hsv (song_recommendations (f (prompt_completo p)))
  have hrun : (generate_playlist (fun s => Except.ok (f s)) service p).2 = Except.ok r := hr
  have hresp : responseOf f service p = r := by
    unfold responseOf
    rw [hr]
  unfold chatStep
  rw [scriptRun_prompt hg hy, turnRun_ok hrun]
  simp [hresp]

theorem sessionAfter_aux {service : SearchRequest → SearchOutcome}
    (hsv : StrService service) (f : String → String) {gk yk : String}
    (hg : gk ≠ "") (hy : yk ≠ "") :
    ∀ (ps : List String) (msgs : List Message),
      ps.foldl (chatStep (fun s => Except.ok (f s)) service gk yk) (some msgs) =
        some (msgs ++ ps.flatMap
          (fun p => [ ⟨ "user", p ⟩, ⟨ "assistant", responseOf f service p ⟩ ])) := by
  intro ps
  induction ps with
  | nil =>
      intro msgs
      simp
  | cons p rest ih =>
      intro msgs
      rw [List.foldl_cons, chatStep_eq hsv f hg hy msgs p, ih]
      simp [List.flatMap_cons, List.append_assoc]

theorem scriptRun_first {genText : String → Except PyErr String}
    {service : SearchRequest → SearchOutcome} {gk yk : String}
    (hg : gk ≠ "") (hy : yk ≠ "") :
    (scriptRun genText service ⟨ some gk, some yk, none, none, none ⟩).finalMessages =
      some [greetingMessage] := by
  rw [scriptRun_noprompt hg hy]
  rfl

theorem sessionAfter_eq {service : SearchRequest → SearchOutcome}
    (hsv : StrService service) (f : String → String) {gk yk : String}
    (hg : gk ≠ "") (hy : yk ≠ "") (prompts : List String) :
    sessionAfter (fun s => Except.ok (f s)) service gk yk prompts =
      some (greetingMessage :: prompts.flatMap
        (fun p => [ ⟨ "user", p ⟩, ⟨ "assistant", responseOf f service p ⟩ ])) := by
  unfold sessionAfter
  rw [scriptRun_first hg hy, sessionAfter_aux hsv f hg hy prompts [greetingMessage]]
  rfl

theorem bind_pair_length {α β : Type} (f g : α → β) :
    ∀ l : List α, (l.flatMap (fun p => [f p, g p])).length = 2 * l.length := by
  intro l
  induction l with
  | nil => rfl
  | cons a t ih =>
      simp only [List.flatMap_cons, List.length_append, List.length_cons, ih,
        List.length_nil, List.length_cons]
      omega

/-! ### Claim theorems -/

/-- C1: For every run of the playlist assembler, the `video_ids` sequence
built by the loop is exactly the resolved identifiers in candidate resolution
order (duplicates kept, never reordered or deduplicated: `video_idsOf` is an
order-preserving `filterMap` over the lines); when that sequence is non-empty
the returned message is exactly the success message embedding the URL
`https://www.youtube.com/watch_videos?video_ids=<comma-join of the ids>`, and
when it is empty the returned message is the fixed apology sentence. -/
theorem c1_assembler_url (service : SearchRequest → SearchOutcome)
    (lines : List String) (strs : List String)
    (h : video_idsOf service lines = strs.map PyVal.str) :
    searchLoop service lines = ( callsOf lines, video_idsOf service lines ) ∧
    (assemble service lines).2 = Except.ok (if strs.isEmpty then apologyMsg
      else "Playlist pronta! 🎧\n\n[Clique aqui para ouvir no YouTube](https://www.youtube.com/watch_videos?video_ids=" ++ commaJoin strs ++ ")") := by
  refine ⟨searchLoop_eq service lines, ?_⟩
  rw [assemble_snd h]
  rfl

/-- C1 witness: with a service always returning id "abc123", two matching
lines give the success message with the duplicate-preserving join
"abc123,abc123". -/
theorem c1_assembler_url_witness :
    (assemble svcAbc [ "A | B", "C | D" ]).2 =
      Except.ok "Playlist pronta! 🎧\n\n[Clique aqui para ouvir no YouTube](https://www.youtube.com/watch_videos?video_ids=abc123,abc123)" := by
  have h := c1_assembler_url svcAbc [ "A | B", "C | D" ] [ "abc123", "abc123" ] (by rfl)
  exact h.2.trans (by rfl)

/-- C2: For a generation output all of whose lines have the shape
`A ++ "|" ++ B` with `A` and `B` non-empty and pipe-free, the parser yields
exactly one candidate per line, in order, each equal to
(`A` stripped, `B` stripped); in particular the candidate count equals the
line count. -/
theorem c2_parser_shape (ps : List (String × String))
    (h : ∀ q ∈ ps, q.1 ≠ "" ∧ q.2 ≠ "" ∧ '|' ∉ q.1.data ∧ '|' ∉ q.2.data) :
    candidatesOf (ps.map (fun q => q.1 ++ "|" ++ q.2)) =
        ps.map (fun q => ( pyStrip q.1, pyStrip q.2 )) ∧
      (candidatesOf (ps.map (fun q => q.1 ++ "|" ++ q.2))).length =
        (ps.map (fun q => q.1 ++ "|" ++ q.2)).length := by
  have main : ∀ (qs : List (String × String)),
      (∀ q ∈ qs, q.1 ≠ "" ∧ q.2 ≠ "" ∧ '|' ∉ q.1.data ∧ '|' ∉ q.2.data) →
      candidatesOf (qs.map (fun q => q.1 ++ "|" ++ q.2)) =
        qs.map (fun q => ( pyStrip q.1, pyStrip q.2 )) := by
    intro qs
    induction qs with
    | nil =>
        intro _
        rfl
    | cons q rest ih =>
        intro hq
        obtain ⟨h1, h2, h3, _⟩ := hq q (List.mem_cons_self q rest)
        have hrest : List.filterMap parseLine (rest.map (fun x => x.1 ++ "|" ++ x.2)) =
            rest.map (fun x => ( pyStrip x.1, pyStrip x.2 )) :=
          ih (fun x hx => hq x (List.mem_cons_of_mem q hx))
        show List.filterMap parseLine ((q :: rest).map (fun x => x.1 ++ "|" ++ x.2)) = _
        rw [List.map_cons, List.filterMap_cons, parseLine_split h1 h3 h2]
        show ( pyStrip q.1, pyStrip q.2 ) ::
            List.filterMap parseLine (rest.map (fun x => x.1 ++ "|" ++ x.2)) = _
        rw [hrest, List.map_cons]
  refine ⟨main ps h, ?_⟩
  rw [main ps h, List.length_map, List.length_map]

/-- C2 witness: one well-shaped line produces exactly one candidate with both
fields whitespace-trimmed. -/
theorem c2_parser_shape_witness :
    candidatesOf [ "Imagine | John Lennon" ] = [ ( "Imagine", "John Lennon" ) ] := by
  have h := (c2_parser_shape [ ( "Imagine ", " John Lennon" ) ] (by decide)).1
  exact (show candidatesOf [ "Imagine | John Lennon" ] =
      candidatesOf ([ ( "Imagine ", " John Lennon" ) ].map (fun q => q.1 ++ "|" ++ q.2))
    from rfl).trans (h.trans (by rfl))

/-- C3 counterexample: the line "a|b|c" contains more than one pipe, yet the
parser does NOT drop it — it yields the candidate ("a", "b|c"), refuting the
claim that lines without a single pipe separator yield no candidate. -/
theorem c3_multi_pipe_counterexample :
    ( "a|b|c" : String).data.count '|' = 2 ∧
      parseLine "a|b|c" = some ( "a", "b|c" ) := by
  constructor
  · decide
  · decide

/-- C3 (amended): every line containing NO pipe character yields no candidate
and is silently dropped by the resolution loop — it contributes neither a
candidate, nor a search call, nor an id, and no error is reported. -/
theorem c3_no_pipe_dropped (line : String) (h : '|' ∉ line.data) :
    parseLine line = none ∧
      ∀ (service : SearchRequest → SearchOutcome) (rest : List String),
        searchLoop service (line :: rest) = searchLoop service rest ∧
        candidatesOf (line :: rest) = candidatesOf rest := by
  have hp : parseLine line = none := parseLine_no_pipe h
  refine ⟨hp, fun service rest => ⟨?_, ?_⟩⟩
  · unfold searchLoop
    rw [List.foldl_cons, searchStep_none hp]
  · unfold candidatesOf
    rw [List.filterMap_cons, hp]

/-- C3 witness: the pipe-free line "Imagine" is dropped. -/
theorem c3_no_pipe_dropped_witness :
    ('|' ∉ ( "Imagine" : String).data) ∧ parseLine "Imagine" = none := by
  refine ⟨by decide, ?_⟩
  exact (c3_no_pipe_dropped "Imagine" (by decide)).1

/-- C4: the search client issues exactly the query
`"<title> <artist> official audio"` with `part='snippet'`, `maxResults=1`,
`type='video'` (and depends on the service only through that one request);
it returns `none` when the call raises, when the `items` key is missing, or
when the result list is empty, and returns the first result's
`["id"]["videoId"]` value otherwise.  Errors are swallowed: the function's
result type carries no exception. -/
theorem c4_search_client (service : SearchRequest → SearchOutcome) (t a : String) :
    (mkReq t a).q = t ++ " " ++ a ++ " official audio" ∧
    (mkReq t a).part = "snippet" ∧
    (mkReq t a).maxResults = 1 ∧
    (mkReq t a).rtype = "video" ∧
    get_youtube_video_id service t a =
      get_youtube_video_id (fun _ => service (mkReq t a)) t a ∧
    (service (mkReq t a) = SearchOutcome.raise →
      get_youtube_video_id service t a = none) ∧
    (∀ resp, service (mkReq t a) = SearchOutcome.ok resp →
      resp.getKey "items" = none → get_youtube_video_id service t a = none) ∧
    (∀ resp, service (mkReq t a) = SearchOutcome.ok resp →
      resp.getKey "items" = some (PyVal.list []) →
      get_youtube_video_id service t a = none) ∧
    (∀ resp x xs v, service (mkReq t a) = SearchOutcome.ok resp →
      resp.getKey "items" = some (PyVal.list (x :: xs)) →
      ((x.getKey "id").bind (fun y => y.getKey "videoId")) = some v →
      get_youtube_video_id service t a = some v) := by
  refine ⟨rfl, rfl, rfl, rfl, rfl, ?_, ?_, ?_, ?_⟩
  · intro h
    simp [get_youtube_video_id, h]
  · intro resp h1 h2
    simp [get_youtube_video_id, h1, h2]
  · intro resp h1 h2
    simp [get_youtube_video_id, h1, h2, pyTruthy]
  · intro resp x xs v h1 h2 h3
    simp [get_youtube_video_id, h1, h2, pyTruthy, PyVal.index, h3]

/-- C4 witness: on a well-formed single-result response the first videoId is
returned. -/
theorem c4_search_client_witness :
    get_youtube_video_id svcAbc "x" "y" = some (PyVal.str "abc123") := by
  have h := c4_search_client svcAbc "x" "y"
  exact h.2.2.2.2.2.2.2.2 respOkVal
    (PyVal.dict [ ( "id", PyVal.dict [ ( "videoId", PyVal.str "abc123" ) ] ) ]) []
    (PyVal.str "abc123") rfl rfl rfl

/-- C5: with valid credentials, a total generation model and a search service
returning string ids, the session history after the initial render and N
completed user turns is exactly the seed greeting followed by one
user/assistant pair per turn in order — 1 + 2N entries — and it is
append-only: the history after N turns is a prefix of the history after one
more turn. -/
theorem c5_history_shape (f : String → String) (service : SearchRequest → SearchOutcome)
    (gk yk : String) (prompts : List String)
    (hg : gk ≠ "") (hy : yk ≠ "") (hsv : StrService service) :
    ∃ hist : List Message,
      sessionAfter (fun s => Except.ok (f s)) service gk yk prompts = some hist ∧
      hist = greetingMessage :: prompts.flatMap
        (fun p => [ ⟨ "user", p ⟩, ⟨ "assistant", responseOf f service p ⟩ ]) ∧
      hist.length = 1 + 2 * prompts.length ∧
      ∀ q : String, ∃ hist' : List Message,
        sessionAfter (fun s => Except.ok (f s)) service gk yk (prompts ++ [q]) =
            some hist' ∧
          hist <+: hist' := by
  refine ⟨_, sessionAfter_eq hsv f hg hy prompts, rfl, ?_, ?_⟩
  · rw [List.length_cons,
      bind_pair_length (fun p => ( ⟨ "user", p ⟩ : Message ))
        (fun p => ( ⟨ "assistant", responseOf f service p ⟩ : Message )) prompts]
    omega
  · intro q
    refine ⟨_, sessionAfter_eq hsv f hg hy (prompts ++ [q]), ?_⟩
    refine ⟨[ ⟨ "user", q ⟩, ⟨ "assistant", responseOf f service q ⟩ ], ?_⟩
    simp [List.flatMap_append]

/-- C5 witness: one completed turn on a service that always raises gives a
3-entry history. -/
theorem c5_history_shape_witness :
    ∃ hist : List Message,
      sessionAfter (fun s => Except.ok ((fun _ => "Song | Artist") s)) svcRaise
          "g" "y" [ "rock" ] = some hist ∧
        hist.length = 3 := by
  obtain ⟨hist, h1, _, h3, _⟩ := c5_history_shape (fun _ => "Song | Artist") svcRaise
    "g" "y" [ "rock" ] (by decide) (by decide)
    (by intro t a v hv; simp [get_youtube_video_id, svcRaise] at hv)
  exact ⟨hist, h1, by rw [h3]; rfl⟩

/-- C6: if either credential is missing or empty, the run halts at the key
check: the only effect is the error banner, the session state is untouched
(no greeting seeded), and no message is shown and no generation or search
call is made. -/
theorem c6_missing_keys (genText : String → Except PyErr String)
    (service : SearchRequest → SearchOutcome) (gkey ykey : Option String)
    (cfg : Option String) (st : Option (List Message)) (pr : Option String)
    (h : optTruthy gkey = false ∨ optTruthy ykey = false) :
    scriptRun genText service ⟨ gkey, ykey, cfg, st, pr ⟩ =
        ⟨ [Effect.errorMsg keysMissingError], st, none ⟩ ∧
      (∀ m, Effect.showMessage m ∉
        (scriptRun genText service ⟨ gkey, ykey, cfg, st, pr ⟩).trace) ∧
      (∀ s, Effect.genCall s ∉
        (scriptRun genText service ⟨ gkey, ykey, cfg, st, pr ⟩).trace) ∧
      (∀ r, Effect.searchCall r ∉
        (scriptRun genText service ⟨ gkey, ykey, cfg, st, pr ⟩).trace) := by
  have h1 : scriptRun genText service ⟨ gkey, ykey, cfg, st, pr ⟩ =
      ⟨ [Effect.errorMsg keysMissingError], st, none ⟩ := scriptRun_bad_keys h
  refine ⟨h1, fun m => ?_, fun s => ?_, fun r => ?_⟩ <;> rw [h1] <;> simp

/-- C6 witness: with the generation key missing the run is exactly the error
banner and an untouched (uninitialised) state. -/
theorem c6_missing_keys_witness :
    scriptRun (fun _ => Except.error "e") svcRaise ⟨ none, some "k", none, none, none ⟩ =
      ⟨ [Effect.errorMsg keysMissingError], none, none ⟩ := by
  exact (c6_missing_keys (fun _ => Except.error "e") svcRaise none (some "k")
    none none none (Or.inl rfl)).1

/-- C7: when the generation call raises, nothing inside `generate_playlist`
catches it: the function propagates the error with no search request issued,
and the turn ends with the exception uncaught — the user message was appended
but no assistant message was produced and no search call appears in the
trace. -/
theorem c7_generation_error (genText : String → Except PyErr String)
    (service : SearchRequest → SearchOutcome) (u : String) (e : PyErr)
    (gk yk : String) (msgs : List Message)
    (hg : gk ≠ "") (hy : yk ≠ "")
    (hgen : genText (prompt_completo u) = Except.error e) :
    generate_playlist genText service u = ([], Except.error e) ∧
    scriptRun genText service ⟨ some gk, some yk, none, some msgs, some u ⟩ =
      ⟨ msgs.map Effect.showMessage ++ [Effect.showMessage ⟨ "user", u ⟩] ++
          [Effect.genCall (prompt_completo u)],
        some (msgs ++ [ ⟨ "user", u ⟩ ]), some e ⟩ ∧
    ∀ r, Effect.searchCall r ∉
      (scriptRun genText service ⟨ some gk, some yk, none, some msgs, some u ⟩).trace := by
  have hgp : generate_playlist genText service u = ([], Except.error e) := by
    unfold generate_playlist
    rw [hgen]
  have hrun : scriptRun genText service ⟨ some gk, some yk, none, some msgs, some u ⟩ =
      ⟨ msgs.map Effect.showMessage ++ [Effect.showMessage ⟨ "user", u ⟩] ++
          [Effect.genCall (prompt_completo u)],
        some (msgs ++ [ ⟨ "user", u ⟩ ]), some e ⟩ := by
    rw [scriptRun_prompt hg hy, turnRun_error (by rw [hgp])]
    rw [hgp]
    simp
  refine ⟨hgp, hrun, fun r => ?_⟩
  rw [hrun]
  simp

/-- C7 witness: a generation model that raises "boom" leaves the turn with
the uncaught exception. -/
theorem c7_generation_error_witness :
    (scriptRun (fun _ => Except.error "boom") svcRaise
      ⟨ some "g", some "y", none, some [greetingMessage], some "rock" ⟩).uncaught =
      some "boom" := by
  have h := c7_generation_error (fun _ => Except.error "boom") svcRaise "rock" "boom"
    "g" "y" [greetingMessage] (by decide) (by decide) rfl
  rw [h.2.1]

/-- C8: the two near-duplicate pipeline copies (the Streamlit
`generate_playlist` from `src/pagina.py` and the second copy modelled from
the spec) are both instances of one generic prompt-parameterized pipeline —
i.e. they are behaviourally equivalent up to the prompt template (wording and
song count target). -/
theorem c8_duplicate_pipeline :
    (∀ (genText : String → Except PyErr String)
        (service : SearchRequest → SearchOutcome) (u : String),
      generate_playlist genText service u =
        pipelineWith prompt_completo genText service u) ∧
    (∀ (tmpl : String → String) (genText : String → Except PyErr String)
        (service : SearchRequest → SearchOutcome) (u : String),
      generate_playlist_script tmpl genText service u =
        pipelineWith tmpl genText service u) := by
  constructor
  · intro genText service u
    rfl
  · intro tmpl genText service u
    unfold generate_playlist_script pipelineWith assemble searchLoop song_recommendations
    rfl

/-- C9: a line whose text on one side of the pipe is whitespace-only still
matches and yields a candidate with an empty field, and that candidate is
used to build a search query. -/
theorem c9_empty_field_candidates :
    parseLine " | Artist" = some ( "", "Artist" ) ∧
    parseLine "Title | " = some ( "Title", "" ) ∧
    (searchLoop svcRaise [ " | Artist" ]).1 = [ mkReq "" "Artist" ] ∧
    (mkReq "" "Artist").q = " Artist official audio" := by
  refine ⟨by decide, by decide, by decide, by decide⟩

/-- C10: `get_youtube_video_id` is total at its interface — its result type
is `Option`, no exception escapes — and for every behaviour of the search
service its result is `none` unless the response is fully well-formed: only a
non-raising call whose response has a truthy `items` entry and a complete
`[0]["id"]["videoId"]` chain produces `some`. -/
theorem c10_search_total (service : SearchRequest → SearchOutcome) (t a : String) :
    get_youtube_video_id service t a = none ∨
    ∃ resp items v, service (mkReq t a) = SearchOutcome.ok resp ∧
      resp.getKey "items" = some items ∧ pyTruthy items = true ∧
      ((items.index 0).bind (fun x => x.getKey "id")).bind
        (fun x => x.getKey "videoId") = some v ∧
      get_youtube_video_id service t a = some v := by
  cases hsv : service (mkReq t a) with
  | raise =>
      left
      simp [get_youtube_video_id, hsv]
  | ok resp =>
      cases hi : resp.getKey "items" with
      | none =>
          left
          simp [get_youtube_video_id, hsv, hi]
      | some items =>
          by_cases ht : pyTruthy items
          · cases hc : ((items.index 0).bind (fun x => x.getKey "id")).bind
                (fun x => x.getKey "videoId") with
            | none =>
                left
                simp [get_youtube_video_id, hsv, hi, ht, hc]
            | some v =>
                right
                exact ⟨resp, items, v, rfl, hi, ht, hc,
                  by simp [get_youtube_video_id, hsv, hi, ht, hc]⟩
          · left
            simp [get_youtube_video_id, hsv, hi, ht]

end Playlisto
